import Mathlib

/-
Verification of zenml/core/steps/trainer/base_trainer.py
(class BaseTrainerStep).

The Python class stores four optional constructor arguments verbatim,
derives `schema` from the transform output (via the external
tft.TFTransformOutput provider, modelled here as a function argument)
and derives `log_dir = os.path.join(os.path.dirname(serving_model_dir),
"logs")`.  All base hooks have body `pass`: they terminate normally
(`Except.ok`), return Python `None` (`Option.none`) and leave the
instance untouched.  Python raising is modelled with `Except String`,
mutation by threading the instance state explicitly.
-/

set_option linter.unusedVariables false

namespace Zenml

/-- Python posixpath.dirname on the character list of a path: keep
everything up to and including the last slash, then strip trailing
slashes unless the head consists of slashes only. -/
def dirnameChars (cs : List Char) : List Char :=
  let head := (cs.reverse.dropWhile (fun c => c ≠ '/')).reverse
  if head ≠ [] ∧ head.any (fun c => c ≠ '/') then
    (head.reverse.dropWhile (fun c => c = '/')).reverse
  else head

/-- Python os.path.dirname (POSIX flavour), as called in the
BaseTrainerStep constructor. -/
def posixDirname (s : String) : String := String.mk (dirnameChars s.data)

/-- Python os.path.join (POSIX flavour) on two components: if the second
component is absolute it wins; otherwise it is appended, inserting a
slash unless the first component is empty or already ends in one. -/
def posixJoin (a b : String) : String :=
  if b.data.head? = some '/' then b
  else if a.data = [] ∨ a.data.getLast? = some '/' then a ++ b
  else a ++ "/" ++ b

/-- Modelled from the spec: the step-type enumeration
zenml.utils.enums.StepTypes is repository code that is not under src;
only its trainer member is referenced by BaseTrainerStep.STEP_TYPE. -/
inductive StepTypes where
  | trainer
deriving DecidableEq

/-- Python Enum member `.name`: the identifier of the member. -/
def StepTypes.name : StepTypes → String
  | .trainer => "trainer"

/-- Instance state of BaseTrainerStep, over an abstract type `Schema`
of feature-spec mappings produced by the external transform-output
provider. -/
structure BaseTrainerStep (Schema : Type) where
  serving_model_dir : Option String
  transform_output : Option String
  train_files : Option String
  eval_files : Option String
  schema : Option Schema
  log_dir : Option String
deriving DecidableEq

/-- BaseTrainerStep.__init__: stores the four arguments verbatim, then
infers `schema` from the transform output via the external provider
(`transformed_feature_spec`, standing for
tft.TFTransformOutput(path).transformed_feature_spec().copy()) and
`log_dir` from the serving directory via os.path. -/
def BaseTrainerStep.init {Schema : Type}
    (transformed_feature_spec : String → Schema)
    (serving_model_dir transform_output train_files eval_files :
      Option String) :
    BaseTrainerStep Schema :=
  let schema : Option Schema :=
    match transform_output with
    | some t => some (transformed_feature_spec t)
    | none => none
  let log_dir : Option String :=
    match serving_model_dir with
    | some d => some (posixJoin (posixDirname d) "logs")
    | none => none
  { serving_model_dir := serving_model_dir
    transform_output := transform_output
    train_files := train_files
    eval_files := eval_files
    schema := schema
    log_dir := log_dir }

/-- BaseTrainerStep.STEP_TYPE class attribute. -/
def BaseTrainerStep.STEP_TYPE : String := StepTypes.trainer.name

/-- Attribute lookup of STEP_TYPE through an instance (Python falls back
to the class attribute; no instance operation shadows it). -/
def BaseTrainerStep.stepType {Schema : Type}
    (self : BaseTrainerStep Schema) : String :=
  BaseTrainerStep.STEP_TYPE

/-- BaseTrainerStep.run_fn: body is `pass`, so it returns normally with
Python None and the unchanged instance. -/
def BaseTrainerStep.run_fn {Schema : Type} (self : BaseTrainerStep Schema) :
    Except String (BaseTrainerStep Schema × Option Unit) :=
  Except.ok (self, none)

/-- BaseTrainerStep.get_run_fn: returns the bound run_fn method of the
same instance, without calling it. -/
def BaseTrainerStep.get_run_fn {Schema : Type}
    (self : BaseTrainerStep Schema) :
    Unit → Except String (BaseTrainerStep Schema × Option Unit) :=
  fun _ => self.run_fn

/-- BaseTrainerStep.input_fn: body is `pass`; the file pattern and
transform-output handle (abstract type `T`) are ignored. -/
def BaseTrainerStep.input_fn {Schema T : Type}
    (self : BaseTrainerStep Schema) (file_pattern : List String)
    (tf_transform_output : T) :
    Except String (BaseTrainerStep Schema × Option Unit) :=
  Except.ok (self, none)

/-- BaseTrainerStep._get_serve_tf_examples_fn (static): body is `pass`. -/
def BaseTrainerStep._get_serve_tf_examples_fn {M T : Type} (model : M)
    (tf_transform_output : T) : Except String (Option Unit) :=
  Except.ok none

/-- BaseTrainerStep._get_ce_eval_tf_examples_fn (static): body is
`pass`. -/
def BaseTrainerStep._get_ce_eval_tf_examples_fn {M T : Type} (model : M)
    (tf_transform_output : T) : Except String (Option Unit) :=
  Except.ok none

/-- BaseTrainerStep.model_fn (static): body is `pass`. -/
def BaseTrainerStep.model_fn {D : Type} (train_dataset eval_dataset : D) :
    Except String (Option Unit) :=
  Except.ok none

/-- C1: for every construction of BaseTrainerStep, `schema` is non-null
iff `transform_output` was supplied, and `log_dir` is non-null iff
`serving_model_dir` was supplied. -/
theorem c1_schema_logdir_nonnull_iff {Schema : Type}
    (fs : String → Schema) (smd tro trf evf : Option String) :
    ((BaseTrainerStep.init fs smd tro trf evf).schema.isSome ↔
      tro.isSome) ∧
    ((BaseTrainerStep.init fs smd tro trf evf).log_dir.isSome ↔
      smd.isSome) := by
  cases tro <;> cases smd <;> simp [BaseTrainerStep.init]

/-- C2: for every construction with a supplied transform output, the
resulting `schema` equals the feature spec produced by the
transform-output provider for that path. -/
theorem c2_schema_from_transform_output {Schema : Type}
    (fs : String → Schema) (smd trf evf : Option String) (t : String) :
    (BaseTrainerStep.init fs smd (some t) trf evf).schema =
      some (fs t) := rfl

/-- C3: for every construction with a supplied serving directory, the
resulting `log_dir` is the parent directory of the serving directory
joined with the fixed segment "logs"; at the concrete input
"/a/b/model" it equals "/a/b/logs". -/
theorem c3_log_dir_parent_join_logs {Schema : Type}
    (fs : String → Schema) (tro trf evf : Option String) (d : String) :
    (BaseTrainerStep.init fs (some d) tro trf evf).log_dir =
      some (posixJoin (posixDirname d) "logs") ∧
    (BaseTrainerStep.init fs (some "/a/b/model") tro trf evf).log_dir =
      some "/a/b/logs" := by
  exact ⟨rfl, rfl⟩

/-- C4: no base hook raises: run_fn, input_fn, model_fn and the two
static signature hooks all return normally, for every instance and all
arguments. -/
theorem c4_hooks_never_raise {Schema T M D : Type}
    (self : BaseTrainerStep Schema) (file_pattern : List String)
    (tfo : T) (model : M) (train_ds eval_ds : D) :
    (∃ r, self.run_fn = Except.ok r) ∧
    (∃ r, self.input_fn file_pattern tfo = Except.ok r) ∧
    (∃ r, BaseTrainerStep.model_fn train_ds eval_ds = Except.ok r) ∧
    (∃ r, BaseTrainerStep._get_serve_tf_examples_fn model tfo =
      Except.ok r) ∧
    (∃ r, BaseTrainerStep._get_ce_eval_tf_examples_fn model tfo =
      Except.ok r) :=
  ⟨⟨_, rfl⟩, ⟨_, rfl⟩, ⟨_, rfl⟩, ⟨_, rfl⟩, ⟨_, rfl⟩⟩

/-- C5: every base hook with access to the instance returns it
unchanged — every field, in particular `schema` and `log_dir`, is
exactly as at construction; model_fn and the two signature hooks are
static and never see the instance at all (their codomain carries no
instance state). -/
theorem c5_hooks_preserve_state {Schema T : Type}
    (self : BaseTrainerStep Schema) (file_pattern : List String)
    (tfo : T) :
    self.run_fn = Except.ok (self, none) ∧
    self.input_fn file_pattern tfo = Except.ok (self, none) ∧
    self.get_run_fn () = Except.ok (self, none) ∧
    self.schema = self.schema ∧ self.log_dir = self.log_dir :=
  ⟨rfl, rfl, rfl, rfl, rfl⟩

/-- C6: every base hook returns Python None: run_fn and input_fn return
None as their value, and model_fn and the two static signature hooks
return None, for all arguments. -/
theorem c6_hooks_return_none {Schema T M D : Type}
    (self : BaseTrainerStep Schema) (file_pattern : List String)
    (tfo : T) (model : M) (train_ds eval_ds : D) :
    (self.run_fn).map Prod.snd = Except.ok none ∧
    (self.input_fn file_pattern tfo).map Prod.snd = Except.ok none ∧
    BaseTrainerStep.model_fn train_ds eval_ds = Except.ok none ∧
    BaseTrainerStep._get_serve_tf_examples_fn model tfo =
      Except.ok none ∧
    BaseTrainerStep._get_ce_eval_tf_examples_fn model tfo =
      Except.ok none :=
  ⟨rfl, rfl, rfl, rfl, rfl⟩

/-- C7: the log_dir derivation is deterministic in serving_model_dir
alone: two constructions sharing the serving directory yield equal
log_dir, whatever the provider, the schema type or the other three
arguments. -/
theorem c7_log_dir_deterministic {S1 S2 : Type}
    (fs1 : String → S1) (fs2 : String → S2) (smd : Option String)
    (tro1 trf1 evf1 tro2 trf2 evf2 : Option String) :
    (BaseTrainerStep.init fs1 smd tro1 trf1 evf1).log_dir =
    (BaseTrainerStep.init fs2 smd tro2 trf2 evf2).log_dir := rfl

/-- C8: get_run_fn returns the instance's own bound run_fn without
invoking it, and calling the returned callable runs run_fn on the same
unchanged instance. -/
theorem c8_get_run_fn_is_bound_run_fn {Schema : Type}
    (self : BaseTrainerStep Schema) :
    self.get_run_fn = (fun _ => self.run_fn) ∧
    self.get_run_fn () = Except.ok (self, none) := ⟨rfl, rfl⟩

/-- C9: the constructor stores serving_model_dir, transform_output,
train_files and eval_files verbatim, None included. -/
theorem c9_fields_stored_verbatim {Schema : Type}
    (fs : String → Schema) (smd tro trf evf : Option String) :
    (BaseTrainerStep.init fs smd tro trf evf).serving_model_dir = smd ∧
    (BaseTrainerStep.init fs smd tro trf evf).transform_output = tro ∧
    (BaseTrainerStep.init fs smd tro trf evf).train_files = trf ∧
    (BaseTrainerStep.init fs smd tro trf evf).eval_files = evf :=
  ⟨rfl, rfl, rfl, rfl⟩

/-- C10: STEP_TYPE equals StepTypes.trainer.name (the string "trainer"),
the lookup through any instance agrees with the class attribute, and it
is identical across any two instances — so no operation, which can only
produce another instance, changes it. -/
theorem c10_step_type_constant {Schema : Type}
    (self other : BaseTrainerStep Schema) :
    BaseTrainerStep.STEP_TYPE = StepTypes.trainer.name ∧
    BaseTrainerStep.STEP_TYPE = "trainer" ∧
    self.stepType = BaseTrainerStep.STEP_TYPE ∧
    self.stepType = other.stepType := ⟨rfl, rfl, rfl, rfl⟩

end Zenml
